import Mathlib

/-!
Shallow embedding of the session/state-management core of the
`pymelcloudhome` library (MELCloud Home client).

Sources embedded:
  * `src/pymelcloudhome/client.py` — `MelCloudHomeClient`: construction,
    `login`, `_fetch_context`, `list_devices`, `get_device_state`,
    `set_device_state`, `close`.
  * `src/pymelcloudhome/services/authentication.py` — `AuthenticationService`:
    `login`, `can_retry_login`, `retry_login`, `_store_credentials`,
    `_wait_for_successful_login`.
  * `src/pymelcloudhome/models/building.py`, `src/pymelcloudhome/models/device.py`
    — the data model; `models/base.py` and `models/user.py` are absent from the
    source tree, so `Setting`, `Capabilities` and `UserProfile` are modelled
    from the spec (see their doc comments).
  * `src/pymelcloudhome/config.py` — constants.

Conventions: time is `Nat` seconds (the code uses `datetime.now()` and
`timedelta(minutes=5)`, i.e. 300 seconds); HTTP transports are oracles
`Nat → …Result` indexed by a running request counter, so "number of HTTP
requests performed" is observable as the counter increment; Python
exceptions become `Except` values.
-/

set_option autoImplicit false

namespace MelCloudHome

/-- Modelled from the spec: `src/pymelcloudhome/models/base.py` is absent from
the source tree; the spec describes a device carrying "an ordered list of
name/value settings", and the tests construct `Setting(name=…, value=…)`. -/
structure Setting where
  name : String
  value : String
deriving DecidableEq

/-- Modelled from the spec: `src/pymelcloudhome/models/base.py` is absent from
the source tree; the spec describes "a capability descriptor (numeric ranges,
boolean feature flags)". -/
structure Capabilities where
  minSetTemperature : Int
  maxSetTemperature : Int
  minSetTankTemperature : Int
  maxSetTankTemperature : Int
  temperatureUnit : String
  hasHotWater : Bool
  hasHalfDegrees : Bool
  hasZone2 : Bool
deriving DecidableEq

/-- Embedding of `Device` from `src/pymelcloudhome/models/device.py`: the pydantic model.
`device_type` is `Optional[str] = None` ('atwunit' or 'ataunit'), assigned by
the client at extraction time; the untyped `schedule: List` is modelled as a
list of opaque entries. -/
structure Device where
  id : String
  device_type : Option String := none
  given_display_name : String
  display_icon : String
  settings : List Setting
  mac_address : String
  time_zone : String
  rssi : Int
  ftc_model : Int
  schedule : List String
  schedule_enabled : Bool
  frost_protection : Option String
  overheat_protection : Option String
  holiday_mode : Option String
  is_connected : Bool
  is_in_error : Bool
  capabilities : Capabilities
deriving DecidableEq

/-- Embedding of `Building` from `src/pymelcloudhome/models/building.py`. -/
structure Building where
  id : String
  name : String
  timezone : String
  air_to_air_units : List Device
  air_to_water_units : List Device
deriving DecidableEq

/-- Modelled from the spec: `src/pymelcloudhome/models/user.py` is absent from
the source tree; the spec's ProfileSnapshot is "the full user/building/device
topology", and the tests construct `UserProfile` with user fields plus
`buildings`, `guestBuildings` and `scenes`. Only `buildings` is consumed by
the client code under verification. -/
structure UserProfile where
  id : String
  firstname : String
  lastname : String
  email : String
  language : String
  buildings : List Building
  guestBuildings : List Building
deriving DecidableEq

/-! ### String containment (Python's `"/dashboard" in current_url`) -/

/-- Helper: `strStarts needle hay` is true iff `needle` is an initial segment of
`hay` (character lists). -/
def strStarts : List Char → List Char → Bool
  | [], _ => true
  | _ :: _, [] => false
  | c :: cs, d :: ds => c == d && strStarts cs ds

/-- Helper: `subSearch needle hay` is true iff `needle` occurs contiguously in
`hay` (character lists). -/
def subSearch : List Char → List Char → Bool
  | needle, [] => strStarts needle []
  | needle, d :: ds => strStarts needle (d :: ds) || subSearch needle ds

/-- Python's substring test `needle in hay` on strings. -/
def strHasSub (hay needle : String) : Bool :=
  subSearch needle.data hay.data

/-! ### Errors

`src/pymelcloudhome/errors.py` is absent from the source tree; the client code
under `src/` raises `ValueError` / `ConnectionError` directly and
`aiohttp.ClientResponseError` via `response.raise_for_status()`.  Error values
are tagged by how the source raises them. -/

/-- Exceptions escaping `MelCloudHomeClient` methods: `http status` is the
`aiohttp` error raised by `response.raise_for_status()` on a non-2xx status;
`valueError` and `connectionError` carry the message of the corresponding
`raise` in `client.py`. -/
inductive ClientErr
  | http (status : Nat)
  | valueError (msg : String)
  | connectionError (msg : String)
deriving DecidableEq

/-- Embedding of `LoginError` from the (absent) `errors.py`, raised by
`AuthenticationService`; carries its message. -/
inductive LoginErr
  | loginError (msg : String)
deriving DecidableEq

/-! ### Config constants (`src/pymelcloudhome/config.py`) -/

def LOGIN_TIMEOUT_MILLISECONDS : Nat := 30000

def DEFAULT_CACHE_DURATION_MINUTES : Nat := 5

def DEVICE_TYPE_AIR_TO_AIR : String := "ataunit"

def DEVICE_TYPE_AIR_TO_WATER : String := "atwunit"

/-! ### MelCloudHomeClient (`src/pymelcloudhome/client.py`)

The client's mutable attributes become `ClientState`; the HTTP session's
responses become oracles indexed by a running request counter `k`, so the
number of HTTP requests a call performs is `k final - k initial`. -/

/-- The server's response to one `GET user/context` request, already decoded:
either a profile validated by `UserProfile.model_validate`, or a non-2xx
status that `raise_for_status` turns into an error. -/
inductive FetchResult
  | ok (profile : UserProfile)
  | httpError (status : Nat)

/-- The server's response to one `GET device/{id}/state` request: a decoded
flat JSON object, or a non-2xx status. -/
inductive StateResult
  | ok (body : List (String × String))
  | httpError (status : Nat)

/-- The server's response to one `PUT {device_type}/{device_id}` request:
a decoded response body of type `β`, or a non-2xx status. -/
inductive WriteResult (β : Type)
  | ok (body : β)
  | httpError (status : Nat)

/-- The mutable attributes of `MelCloudHomeClient` (`__init__`):
`_managed_session` / whether `close` has closed the session, `_user_profile`
and `_last_updated` (a `datetime` in seconds). -/
structure ClientState where
  managed_session : Bool
  session_closed : Bool
  user_profile : Option UserProfile
  last_updated : Option Nat
deriving DecidableEq

/-- Embedding of `MelCloudHomeClient.__init__`: a caller-supplied session gives
`_managed_session = False`, otherwise the client creates its own session and
`_managed_session = True`; `_user_profile` and `_last_updated` start `None`. -/
def client_init (session_provided : Bool) : ClientState :=
  { managed_session := !session_provided
    session_closed := false
    user_profile := none
    last_updated := none }

/-- Embedding of `MelCloudHomeClient._fetch_context`: `GET user/context`,
`raise_for_status`, then store the validated profile and stamp
`_last_updated = datetime.now()`. Consumes one request from the oracle. -/
def fetch_context (t : Nat → FetchResult) (k : Nat) (now : Nat)
    (s : ClientState) : Except ClientErr ClientState × Nat :=
  match t k with
  | .ok p => (.ok { s with user_profile := some p, last_updated := some now }, k + 1)
  | .httpError st => (.error (.http st), k + 1)

/-- The staleness guard shared by `list_devices` and `get_device_state`:
`not self._user_profile or (self._last_updated and
(datetime.now() - self._last_updated) > timedelta(minutes=5))`.
Python truthiness: `None` is falsy, so with `_last_updated = None` the second
disjunct is falsy. `timedelta(minutes=5)` is 300 seconds. -/
def needs_refresh (s : ClientState) (now : Nat) : Bool :=
  s.user_profile.isNone ||
    (match s.last_updated with
     | some l => decide (now - l > 300)
     | none => false)

/-- One device tagged by the extraction loop: `unit.device_type = t`.
In Python this assignment mutates the unit object held inside the cached
profile; the functional embedding applies the same update to both the cached
building and the returned list (they alias the same objects). -/
def tag_unit (t : String) (d : Device) : Device :=
  { d with device_type := some t }

/-- The body of the `for building in self._user_profile.buildings` loop of
`list_devices`: for each building, tag every `air_to_air_units` entry
`"ataunit"` and append it, then tag every `air_to_water_units` entry
`"atwunit"` and append it. Returns the buildings as the loop leaves them
(the tag assignments mutate the units in place) paired with the accumulated
`devices` list. -/
def extract_buildings : List Building → List Building × List Device
  | [] => ([], [])
  | b :: rest =>
      let ata := b.air_to_air_units.map (tag_unit "ataunit")
      let atw := b.air_to_water_units.map (tag_unit "atwunit")
      let tail := extract_buildings rest
      ({ b with air_to_air_units := ata, air_to_water_units := atw } :: tail.1,
       (ata ++ atw) ++ tail.2)

/-- Embedding of `MelCloudHomeClient.list_devices`: refresh the profile when missing or
stale, then walk the buildings tagging and collecting units. The returned
state reflects the in-place `unit.device_type` assignments on the cached
profile. -/
def list_devices (t : Nat → FetchResult) (k : Nat) (now : Nat)
    (s : ClientState) : Except ClientErr (ClientState × List Device) × Nat :=
  match (if needs_refresh s now then fetch_context t k now s else (.ok s, k)) with
  | (.error e, k1) => (.error e, k1)
  | (.ok s1, k1) =>
      match s1.user_profile with
      | none => (.ok (s1, []), k1)
      | some p =>
          let res := extract_buildings p.buildings
          (.ok ({ s1 with user_profile := some { p with buildings := res.1 } },
                res.2), k1)

/-- Embedding of `MelCloudHomeClient.get_device_state`: refresh the profile when missing
or stale, raise `ValueError` when the profile is still absent, then
`GET device/{device_id}/state` (one more request) and return the decoded
body, with `raise_for_status` turning a non-2xx status into an error. The
cached snapshot is never consulted for the device id. -/
def get_device_state (t : Nat → FetchResult) (ts : Nat → String → StateResult)
    (k : Nat) (now : Nat) (s : ClientState) (device_id : String) :
    Except ClientErr (ClientState × List (String × String)) × Nat :=
  match (if needs_refresh s now then fetch_context t k now s else (.ok s, k)) with
  | (.error e, k1) => (.error e, k1)
  | (.ok s1, k1) =>
      match s1.user_profile with
      | none => (.error (.valueError "User profile is not available. Please login first."), k1)
      | some _ =>
          match ts k1 ("device/" ++ device_id ++ "/state") with
          | .ok body => (.ok (s1, body), k1 + 1)
          | .httpError st => (.error (.http st), k1 + 1)

/-- Embedding of `MelCloudHomeClient.set_device_state`: `if not device_type: raise
ValueError(...)` before any HTTP call; otherwise `PUT
{device_type}/{device_id}`, `raise_for_status`, set `_last_updated = None`
("Invalidate cache to ensure latest state is fetched next time") and return
the decoded response body. -/
def set_device_state {β : Type} (tw : Nat → String → WriteResult β) (k : Nat)
    (s : ClientState) (device_id : String) (device_type : String) :
    Except ClientErr (ClientState × β) × Nat :=
  if device_type = "" then
    (.error (.valueError "Device type is not set for this device."), k)
  else
    match tw k (device_type ++ "/" ++ device_id) with
    | .ok body => (.ok ({ s with last_updated := none }, body), k + 1)
    | .httpError st => (.error (.http st), k + 1)

/-- Embedding of `MelCloudHomeClient.close`: `if self._managed_session: await
self._session.close()`. -/
def client_close (s : ClientState) : ClientState :=
  if s.managed_session then { s with session_closed := true } else s

/-- The navigation outcome of the browser flow inside
`MelCloudHomeClient.login`: either `page.wait_for_url("**/dashboard",
timeout=30000)` resolved, or it raised (timeout) with message `msg`. -/
inductive BrowserNav
  | reachedDashboard
  | timedOut (msg : String)

/-- Embedding of `MelCloudHomeClient.login`: on a `wait_for_url` timeout re-raise as
`ConnectionError`; otherwise transfer cookies (session-internal, not part of
`ClientState`) and finish with `await self._fetch_context()`. -/
def client_login (nav : BrowserNav) (t : Nat → FetchResult) (k : Nat)
    (now : Nat) (s : ClientState) : Except ClientErr ClientState × Nat :=
  match nav with
  | .timedOut msg =>
      (.error (.connectionError
        ("Login failed. Did not redirect to dashboard. Error: " ++ msg)), k)
  | .reachedDashboard => fetch_context t k now s

/-! ### AuthenticationService (`src/pymelcloudhome/services/authentication.py`)

The service's mutable attributes are the stored credentials.  The browser run
is summarised by its observables: whether the navigation wait raised
(timeout), and the page URL after the wait (`page.url`). -/

/-- The credential attributes of `AuthenticationService.__init__`:
`_email: str | None = None`, `_password: str | None = None`. -/
structure AuthState where
  email : Option String
  password : Option String
deriving DecidableEq

/-- Embedding of `AuthenticationService.__init__`: no credentials stored. -/
def auth_init : AuthState :=
  { email := none, password := none }

/-- Python truthiness of a `str | None` value: `None` and `""` are falsy. -/
def truthyStr : Option String → Bool
  | some s => !(s == "")
  | none => false

/-- Embedding of `AuthenticationService._store_credentials`: overwrite both fields. -/
def store_credentials (email password : String) (st : AuthState) : AuthState :=
  { st with email := some email, password := some password }

/-- Embedding of `AuthenticationService.can_retry_login`:
`bool(self._email and self._password)` — Python `and` keeps the first falsy
operand, so this is truthiness of both fields. -/
def can_retry_login (st : AuthState) : Bool :=
  truthyStr st.email && truthyStr st.password

set_option linter.unusedVariables false in
/-- Embedding of `AuthenticationService._wait_for_successful_login`: the
`page.waitForNavigation(timeout=LOGIN_TIMEOUT_MILLISECONDS)` exception is
swallowed (`except ... logger.debug`), then the outcome hinges only on
whether `"/dashboard" in page.url`; on failure raise
`LoginError(f"Login failed. Redirected to {current_url} instead of dashboard")`. -/
def wait_for_successful_login (navTimedOut : Bool) (current_url : String) :
    Except LoginErr Unit :=
  if strHasSub current_url "/dashboard" then .ok ()
  else .error (.loginError
    ("Login failed. Redirected to " ++ current_url ++ " instead of dashboard"))

/-- Embedding of `AuthenticationService.login`: `_store_credentials(email, password)` runs
first, then the browser flow (`_perform_browser_login`), whose outcome is
decided by `_wait_for_successful_login`; the stored credentials survive both
success and failure. -/
def auth_login (email password : String) (navTimedOut : Bool)
    (current_url : String) (st : AuthState) : AuthState × Except LoginErr Unit :=
  let st1 := store_credentials email password st
  (st1, wait_for_successful_login navTimedOut current_url)

/-- Embedding of `AuthenticationService.retry_login`: raise
`LoginError("Cannot re-login, credentials not stored.")` when
`can_retry_login()` is false, else `login(self._email, self._password)`. -/
def retry_login (navTimedOut : Bool) (current_url : String) (st : AuthState) :
    AuthState × Except LoginErr Unit :=
  if can_retry_login st then
    auth_login (st.email.getD "") (st.password.getD "") navTimedOut current_url st
  else
    (st, .error (.loginError "Cannot re-login, credentials not stored."))

/-! ### Concrete data for witnesses and counterexamples

Values mirroring the fixtures of `src/tests/test_integration.py`. -/

def sampleCaps : Capabilities :=
  { minSetTemperature := 16
    maxSetTemperature := 30
    minSetTankTemperature := 40
    maxSetTankTemperature := 60
    temperatureUnit := "C"
    hasHotWater := false
    hasHalfDegrees := false
    hasZone2 := false }

def sampleDevice (i : String) (display : String) : Device :=
  { id := i
    device_type := none
    given_display_name := display
    display_icon := display
    settings := [⟨"Power", "True"⟩, ⟨"SetTemperature", "22"⟩]
    mac_address := "00:11:22:33:44:55"
    time_zone := "UTC"
    rssi := 80
    ftc_model := 1
    schedule := []
    schedule_enabled := false
    frost_protection := none
    overheat_protection := none
    holiday_mode := none
    is_connected := true
    is_in_error := false
    capabilities := sampleCaps }

def sampleBuilding : Building :=
  { id := "building-id"
    name := "Test Building"
    timezone := "UTC"
    air_to_air_units := [sampleDevice "ata-device-id" "ATA Unit"]
    air_to_water_units := [sampleDevice "atw-device-id" "ATW Unit"] }

def sampleProfile : UserProfile :=
  { id := "user-id"
    firstname := "Test"
    lastname := "User"
    email := "test@example.com"
    language := "en"
    buildings := [sampleBuilding]
    guestBuildings := [] }

/-- A client state holding a freshly cached `sampleProfile`
(`_last_updated = 0`). -/
def sampleCachedState : ClientState :=
  { managed_session := true
    session_closed := false
    user_profile := some sampleProfile
    last_updated := some 0 }

/-- One building as the `list_devices` loop leaves it: both unit lists tagged
in place with their category. -/
def tag_building (b : Building) : Building :=
  { b with
    air_to_air_units := b.air_to_air_units.map (tag_unit "ataunit")
    air_to_water_units := b.air_to_water_units.map (tag_unit "atwunit") }

/-- The cached `sampleProfile` after one `list_devices` extraction. -/
def sampleTaggedProfile : UserProfile :=
  { sampleProfile with buildings := sampleProfile.buildings.map tag_building }

/-! ## Theorems -/

/-! ### String-containment helper lemmas -/

theorem strStarts_self_append (l r : List Char) : strStarts l (l ++ r) = true := by
  induction l with
  | nil => rfl
  | cons c cs ih => simp [strStarts, ih]

theorem subSearch_nil_needle (hay : List Char) : subSearch [] hay = true := by
  cases hay with
  | nil => rfl
  | cons d ds => simp [subSearch, strStarts]

theorem subSearch_append (a needle b : List Char) :
    subSearch needle (a ++ (needle ++ b)) = true := by
  induction a with
  | nil =>
    cases needle with
    | nil => simpa using subSearch_nil_needle b
    | cons c cs =>
      simp only [List.nil_append, List.cons_append, subSearch]
      have h := strStarts_self_append (c :: cs) b
      simp only [List.cons_append] at h
      simp [h]
  | cons x xs ih =>
    simp only [List.cons_append, subSearch, List.append_eq, ih, Bool.or_true]

/-- A string syntactically embedded between two others is found by
`strHasSub`. -/
theorem strHasSub_embedded (pre u post : String) :
    strHasSub (pre ++ u ++ post) u = true := by
  show subSearch u.data (pre ++ u ++ post).data = true
  have hd : (pre ++ u ++ post).data = pre.data ++ (u.data ++ post.data) := by
    simp [String.data_append]
  rw [hd]
  exact subSearch_append pre.data u.data post.data

/-- The `extract_buildings` loop leaves every building with its unit lists
tagged in place. -/
theorem extract_buildings_fst (bs : List Building) :
    (extract_buildings bs).1 = bs.map tag_building := by
  induction bs with
  | nil => rfl
  | cons b rest ih => simp [extract_buildings, tag_building, ih]

/-! ### Claim theorems -/

/-- C1: the code has no retry-on-401 path. With a cached profile gone stale
(fetch forced) and the transport answering the first `user/context` request
with HTTP 401 and the second with a valid profile, `list_devices` propagates
the 401 as an error after exactly one request — no re-authentication, no
second fetch — even though the very next fetch would have succeeded
(second conjunct). This contradicts the claimed
one-re-authentication-and-one-retry behaviour. -/
theorem c1_fetch_401_propagates_without_retry :
    list_devices
        (fun k => if k = 0 then FetchResult.httpError 401
                  else FetchResult.ok sampleProfile)
        0 301 sampleCachedState
      = (.error (.http 401), 1)
    ∧ fetch_context
        (fun k => if k = 0 then FetchResult.httpError 401
                  else FetchResult.ok sampleProfile)
        1 301 sampleCachedState
      = (.ok { sampleCachedState with
                user_profile := some sampleProfile,
                last_updated := some 301 }, 2) :=
  ⟨rfl, rfl⟩

/-- C2: a successful `set_device_state` returns the decoded body unchanged
and sets `_last_updated = None`, but that sentinel makes the staleness guard
`self._last_updated and (now - self._last_updated) > timedelta(minutes=5)`
falsy forever, so an immediately following `list_devices` performs zero
transport requests (the counter is unchanged for every `now`), contradicting
the claimed observable fresh context fetch. -/
theorem c2_write_then_read_skips_fetch :
    set_device_state (fun _ _ => WriteResult.ok "ack") 0 sampleCachedState
        "atw-device-id" "atwunit"
      = (.ok ({ sampleCachedState with last_updated := none }, "ack"), 1)
    ∧ ∀ (now k2 : Nat) (t : Nat → FetchResult),
        needs_refresh { sampleCachedState with last_updated := none } now = false
        ∧ (list_devices t k2 now
            { sampleCachedState with last_updated := none }).2 = k2 :=
  ⟨rfl, fun _ _ _ => ⟨rfl, rfl⟩⟩

/-- C3: the extraction loop of `list_devices` returns, building by building
in snapshot order, first every `air_to_air_units` entry tagged `"ataunit"`
(the air-to-air category constant) and then every `air_to_water_units` entry
tagged `"atwunit"` — each output device's tag matches the sub-list it was
read from. -/
theorem c3_extract_devices_order_and_tags (bs : List Building) :
    (extract_buildings bs).2 =
      bs.flatMap (fun b =>
        b.air_to_air_units.map (tag_unit DEVICE_TYPE_AIR_TO_AIR) ++
        b.air_to_water_units.map (tag_unit DEVICE_TYPE_AIR_TO_WATER)) := by
  induction bs with
  | nil => rfl
  | cons b rest ih =>
    simp [extract_buildings, DEVICE_TYPE_AIR_TO_AIR, DEVICE_TYPE_AIR_TO_WATER,
      List.flatMap_cons, ih]

/-- C5: `set_device_state` invoked with an empty `device_type` (category)
fails with the `ValueError` raised before the URL is even built — the
Device-Not-Found path of the spec — and the request counter is unchanged:
zero HTTP calls, for every identifier, payload oracle and client state. -/
theorem c5_empty_device_type_no_http (β : Type)
    (tw : Nat → String → WriteResult β) (k : Nat) (s : ClientState)
    (device_id : String) :
    set_device_state tw k s device_id "" =
      (.error (.valueError "Device type is not set for this device."), k) :=
  rfl

/-- C4 counterexample: the claim "extracting the device list leaves the
devices nested inside the cached snapshot unchanged" is false on the code.
With `sampleProfile` cached and fresh (no transport request is made — the
oracle only has errors to offer), `list_devices` stores back a profile that
differs from the cached one: its nested air-to-air unit's `device_type`
changed from `none` to `some "ataunit"`, because `unit.device_type = …`
mutates the unit objects held by the cached profile. -/
theorem c4_extraction_mutates_cached_snapshot_cex :
    (list_devices (fun _ => FetchResult.httpError 500) 0 0 sampleCachedState).1
      = Except.ok ({ sampleCachedState with user_profile := some sampleTaggedProfile },
          (extract_buildings sampleProfile.buildings).2)
    ∧ sampleTaggedProfile ≠ sampleProfile
    ∧ sampleProfile.buildings.map (fun b => b.air_to_air_units.map Device.device_type)
        = [[none]]
    ∧ sampleTaggedProfile.buildings.map (fun b => b.air_to_air_units.map Device.device_type)
        = [[some "ataunit"]] :=
  ⟨rfl, by decide, rfl, rfl⟩

/-- C4 amended: category tagging during device extraction mutates the device
objects stored in the cached profile snapshot in place — after
`list_devices` on a valid cached profile `p` (no fetch), the cached snapshot
holds `p` with every building's unit lists tagged by their category, and the
returned devices are exactly the extraction of `p`'s buildings. -/
theorem c4_amended_extraction_tags_in_place (t : Nat → FetchResult)
    (k now : Nat) (s : ClientState) (p : UserProfile)
    (hp : s.user_profile = some p) (hf : needs_refresh s now = false) :
    list_devices t k now s =
      (.ok ({ s with
          user_profile := some { p with buildings := p.buildings.map tag_building } },
        (extract_buildings p.buildings).2), k) := by
  rw [list_devices, hf]
  simp only [if_false, Bool.false_eq_true, ite_false]
  rw [hp]
  simp [extract_buildings_fst]

/-- C4 amended, witness: the amended theorem applied to the concrete cached
`sampleProfile`. -/
theorem c4_amended_witness :
    list_devices (fun _ => FetchResult.httpError 500) 0 0 sampleCachedState =
      (.ok ({ sampleCachedState with
          user_profile :=
            some { sampleProfile with buildings := sampleProfile.buildings.map tag_building } },
        (extract_buildings sampleProfile.buildings).2), 0) :=
  c4_amended_extraction_tags_in_place _ 0 0 _ sampleProfile rfl (by decide)

/-- C6: `_wait_for_successful_login` succeeds exactly when the page URL
contains `/dashboard` — even when the bounded navigation wait
(`LOGIN_TIMEOUT_MILLISECONDS = 30000`, i.e. 30 seconds) timed out — and
otherwise fails with a `LoginError` whose message embeds the URL actually
reached. -/
theorem c6_wait_for_login_dashboard_iff :
    LOGIN_TIMEOUT_MILLISECONDS = 30000
    ∧ ∀ (navTimedOut : Bool) (url : String),
        (strHasSub url "/dashboard" = true →
          wait_for_successful_login navTimedOut url = .ok ())
        ∧ (strHasSub url "/dashboard" = false →
            wait_for_successful_login navTimedOut url =
              .error (.loginError
                ("Login failed. Redirected to " ++ url ++ " instead of dashboard"))
            ∧ strHasSub
                ("Login failed. Redirected to " ++ url ++ " instead of dashboard")
                url = true) := by
  refine ⟨rfl, fun navTimedOut url => ⟨fun h => ?_, fun h => ⟨?_, ?_⟩⟩⟩
  · simp [wait_for_successful_login, h]
  · simp [wait_for_successful_login, h]
  · exact strHasSub_embedded "Login failed. Redirected to " url " instead of dashboard"

/-- C6 witness: on the real dashboard URL the login succeeds even though the
navigation wait timed out, and on a non-dashboard URL it fails with the
URL-bearing message. -/
theorem c6_witness :
    wait_for_successful_login true "https://www.melcloudhome.com/dashboard" = .ok ()
    ∧ wait_for_successful_login false "https://auth.example.com/error"
        = .error (.loginError
            ("Login failed. Redirected to " ++ "https://auth.example.com/error"
              ++ " instead of dashboard")) :=
  ⟨(c6_wait_for_login_dashboard_iff.2 true "https://www.melcloudhome.com/dashboard").1
      (by decide),
   ((c6_wait_for_login_dashboard_iff.2 false "https://auth.example.com/error").2
      (by decide)).1⟩

/-- The "wrong redirect" message of `_wait_for_successful_login` is never the
"credentials not stored" message of `retry_login`, whatever the URL:
their lengths differ. -/
theorem redirect_msg_ne_cannot_retry_msg (url : String) :
    ("Login failed. Redirected to " ++ url ++ " instead of dashboard") ≠
      "Cannot re-login, credentials not stored." := by
  intro heq
  have hlen := congrArg String.length heq
  rw [String.length_append, String.length_append] at hlen
  have h1 : ("Login failed. Redirected to ").length = 28 := by decide
  have h2 : (" instead of dashboard").length = 21 := by decide
  have h3 : ("Cannot re-login, credentials not stored.").length = 40 := by decide
  omega

/-- When `can_retry_login()` holds, `retry_login` re-runs the login flow and
its outcome is that of `_wait_for_successful_login`. -/
theorem retry_login_snd_of_can (navT : Bool) (url : String) (st : AuthState)
    (h : can_retry_login st = true) :
    (retry_login navT url st).2 = wait_for_successful_login navT url := by
  unfold retry_login
  rw [if_pos h]
  rfl

/-- C7 counterexample: after `login("", "password123")` the credentials have
been stored by a prior `login` call (`_email = ""`, `_password =
"password123"` — distinguishable from the initial `None`s), yet
`can_retry_login()` is `False` (Python truthiness of `""`), and
`retry_login()` fails with the "credentials not stored" `LoginError` —
contradicting both halves of the claimed equivalence. -/
theorem c7_can_retry_empty_email_cex :
    (auth_login "" "password123" false "https://x" auth_init).1.email = some ""
    ∧ (auth_login "" "password123" false "https://x" auth_init).1.password
        = some "password123"
    ∧ can_retry_login (auth_login "" "password123" false "https://x" auth_init).1
        = false
    ∧ (retry_login false "https://x"
        (auth_login "" "password123" false "https://x" auth_init).1).2
        = .error (.loginError "Cannot re-login, credentials not stored.") :=
  ⟨rfl, rfl, rfl, rfl⟩

/-- C7 amended: `can_retry_login()` is false initially and, after any
`login(e, p)` call — whatever the browser outcome, since storage happens
before the browser flow — it is true iff both the stored email and password
are non-empty (Python truthiness); `retry_login` fails with the
"credentials not stored" `LoginError` exactly when `can_retry_login()` is
false. -/
theorem c7_amended_can_retry_iff_nonempty_creds :
    can_retry_login auth_init = false
    ∧ (∀ (e p : String) (navT : Bool) (url : String) (st : AuthState),
        can_retry_login (auth_login e p navT url st).1 = true ↔ (e ≠ "" ∧ p ≠ ""))
    ∧ (∀ (navT : Bool) (url : String) (st : AuthState),
        (retry_login navT url st).2
            = .error (.loginError "Cannot re-login, credentials not stored.")
          ↔ can_retry_login st = false) := by
  refine ⟨rfl, fun e p navT url st => ?_, fun navT url st => ?_⟩
  · simp [auth_login, store_credentials, can_retry_login, truthyStr,
      Bool.and_eq_true, Bool.not_eq_true']
  · cases hcr : can_retry_login st with
    | true =>
      rw [retry_login_snd_of_can navT url st hcr]
      simp only [hcr, wait_for_successful_login]
      constructor
      · intro hres
        by_cases hc : strHasSub url "/dashboard" = true
        · rw [if_pos hc] at hres
          exact absurd hres (by simp)
        · rw [if_neg hc] at hres
          rw [Except.error.injEq, LoginErr.loginError.injEq] at hres
          exact absurd hres (redirect_msg_ne_cannot_retry_msg url)
      · intro hfalse
        exact absurd hfalse (by simp)
    | false =>
      simp [retry_login, hcr]

/-- C7 amended, witness: the amended theorem applied to a login with
non-empty credentials. -/
theorem c7_amended_witness :
    can_retry_login (auth_login "a@b.c" "pw" false "u" auth_init).1 = true :=
  (c7_amended_can_retry_iff_nonempty_creds.2.1 "a@b.c" "pw" false "u" auth_init).mpr
    (by refine ⟨by decide, by decide⟩)

/-- C8: `get_device_state` never consults the cached snapshot for the device
id: with `sampleProfile` cached and fresh (its device ids listed in the
first conjunct do not include the queried id), the call issues one HTTP
request to the device-state endpoint and propagates the server's 404 as an
error, rather than returning an absent result. -/
theorem c8_get_device_state_http_not_snapshot :
    (extract_buildings sampleProfile.buildings).2.map Device.id
        = ["ata-device-id", "atw-device-id"]
    ∧ get_device_state (fun _ => FetchResult.httpError 500)
        (fun _ _ => StateResult.httpError 404) 0 0 sampleCachedState
        "nonexistent-device-id"
      = (.error (.http 404), 1) :=
  ⟨rfl, rfl⟩

/-- C9: a caller-supplied session makes `_managed_session` false, and
`close()` closes the underlying session only when `_managed_session` is
true; otherwise it returns the state unchanged — the session stays open and
no other client state is modified. -/
theorem c9_close_only_managed_session :
    (∀ session_provided : Bool,
        (client_init session_provided).managed_session = !session_provided)
    ∧ (∀ s : ClientState, s.managed_session = false → client_close s = s)
    ∧ (∀ s : ClientState, s.managed_session = true →
        client_close s = { s with session_closed := true }) := by
  refine ⟨fun _ => rfl, fun s h => ?_, fun s h => ?_⟩ <;> simp [client_close, h]

/-- C9 witness: the theorem applied to a client constructed with a
caller-supplied session: `close` is the identity on its state. -/
theorem c9_witness :
    client_close (client_init true) = client_init true :=
  c9_close_only_managed_session.2.1 (client_init true) rfl

/-- C10: whenever `MelCloudHomeClient.login` returns successfully, its final
step was a context fetch: the transport answered request `k` with a profile,
that profile is the cached `_user_profile` of the resulting state,
`_last_updated` is stamped with the fetch time, and exactly one request was
made. -/
theorem c10_login_success_populates_profile (nav : BrowserNav)
    (t : Nat → FetchResult) (k now : Nat) (s s1 : ClientState) (k1 : Nat)
    (h : client_login nav t k now s = (.ok s1, k1)) :
    (∃ p, t k = .ok p ∧ s1.user_profile = some p)
    ∧ s1.last_updated = some now ∧ k1 = k + 1 := by
  cases nav with
  | timedOut msg => simp [client_login] at h
  | reachedDashboard =>
    rw [client_login, fetch_context] at h
    cases ht : t k with
    | ok p =>
      rw [ht] at h
      rw [Prod.mk.injEq] at h
      obtain ⟨h1, h2⟩ := h
      rw [Except.ok.injEq] at h1
      subst h1
      exact ⟨⟨p, rfl, rfl⟩, rfl, h2.symm⟩
    | httpError st => rw [ht] at h; simp at h

/-- C10 witness: the theorem applied to a concrete successful login whose
fetch returns `sampleProfile` at time 5. -/
theorem c10_witness :
    (∃ p, (fun _ : Nat => FetchResult.ok sampleProfile) 0 = .ok p
        ∧ ({ client_init true with
              user_profile := some sampleProfile,
              last_updated := some 5 } : ClientState).user_profile = some p)
    ∧ ({ client_init true with
          user_profile := some sampleProfile,
          last_updated := some 5 } : ClientState).last_updated = some 5
    ∧ (1 : Nat) = 0 + 1 :=
  c10_login_success_populates_profile .reachedDashboard
    (fun _ => FetchResult.ok sampleProfile) 0 5 (client_init true) _ 1 rfl

end MelCloudHome
